import Mathlib

/-!
A shallow embedding of the layer-lifecycle and URL-construction subsystem of
the `maplibre-gl-planetary-computer` widget, together with proofs of the
specification's testable properties.

Embedded components (each definition is translated from the TypeScript
source file named in its doc comment):
* the SAS token cache (`src/lib/api/sas-token.ts`),
* the static render-preset registry (`src/lib/api/render-presets.ts`),
* the TiTiler tile-URL builder (`src/lib/api/titiler-client.ts`),
* the layer registry / `LayerManager` (`src/lib/core/LayerManager.ts`).

Modelling conventions:
* JavaScript objects with optional properties become structures with
  `Option` fields (`none` = property absent); JS spread `{...a, ...b}`
  becomes field-wise `b.f <|> a.f`.
* JS `Map` and plain objects used as dictionaries become association
  lists in insertion order (`Object.entries` / `Object.keys` order).
* JS numbers become `Rat` where only stored and compared, `Int`/`Nat`
  where the code treats them as integral (timestamps in ms, tile sizes).
* The MapLibre host map is modelled as explicit state (`MapState`)
  whose operations additionally append to a call log, so that order and
  multiplicity of host-engine calls (source teardown/recreation) are
  provable facts.
* Network fetches and `Date.now()` are suspension points; they are
  modelled by passing the response / current time as explicit arguments.
* `generateId` is random; the generated suffix is passed as an argument.
-/

namespace PC

/-! ## Small helpers: JS truthiness, substring search, association lists -/

/-- JS truthiness of an optional string (`undefined` and `""` are falsy). -/
def strTruthy : Option String → Bool
  | some s => s != ""
  | none => false

/-- JS truthiness of an optional number (`undefined` and `0` are falsy). -/
def natTruthy : Option Nat → Bool
  | some n => n != 0
  | none => false

/-- Is `pat` a contiguous sublist of the second list?  (JS `String.includes`.) -/
def listIncl (pat : List Char) : List Char → Bool
  | [] => pat.isEmpty
  | c :: rest => pat.isPrefixOf (c :: rest) || listIncl pat rest

/-- JS `s.includes(pat)`. -/
def strIncludes (s pat : String) : Bool :=
  listIncl pat.toList s.toList

/-- JS `Map.set` / keyed insert-or-replace on an association list,
keeping insertion order as the JS `Map` does. -/
def alSet {β : Type} (l : List (String × β)) (k : String) (v : β) : List (String × β) :=
  match l with
  | [] => [(k, v)]
  | (k0, v0) :: rest => if k0 == k then (k, v) :: rest else (k0, v0) :: alSet rest k v

/-- JS `Map.delete`. -/
def alDelete {β : Type} (l : List (String × β)) (k : String) : List (String × β) :=
  l.filter (fun p => p.1 != k)

/-! ## STAC data model (`src/lib/api/types.ts`), restricted to the fields the
layer subsystem reads -/

/-- A STAC asset (`STACAsset` in `types.ts`); only `href` and the optional
media `type` are consulted by the layer subsystem. -/
structure STACAsset where
  href : String
  type : Option String := none
deriving DecidableEq

/-- A STAC item (`STACItem` in `types.ts`); `assets` keeps JS object
insertion order as an association list. -/
structure STACItem where
  id : String
  collection : Option String := none
  bbox : List Rat
  assets : List (String × STACAsset)
deriving DecidableEq

/-- A STAC collection (`STACCollection` in `types.ts`).
`extentSpatialBbox` models `extent.spatial.bbox`; the whole chain is
accessed with optional chaining in the source, hence one `Option`. -/
structure STACCollection where
  id : String
  title : Option String := none
  item_assets : Option (List (String × STACAsset)) := none
  extentSpatialBbox : Option (List (List Rat)) := none
deriving DecidableEq

/-- TiTiler rendering parameters (`TileParams` in `types.ts`).  Every field
is optional in the source; `none` models an absent property.  `nodata` is
modelled as `Int` (its string form is only compared for presence). -/
structure TileParams where
  assets : Option (List String) := none
  expression : Option String := none
  rescale : Option String := none
  colormap_name : Option String := none
  colormap : Option (List (Nat × List Nat)) := none
  nodata : Option Int := none
  resampling : Option String := none
  return_mask : Option Bool := none
  tile_size : Option Nat := none
  asset_bidx : Option (List (String × String)) := none
deriving DecidableEq

/-- JS spread `{ ...base, ...upd }` on two `TileParams` values: a property
present on `upd` wins, otherwise the one of `base` is kept. -/
def TileParams.spread (base upd : TileParams) : TileParams where
  assets := upd.assets <|> base.assets
  expression := upd.expression <|> base.expression
  rescale := upd.rescale <|> base.rescale
  colormap_name := upd.colormap_name <|> base.colormap_name
  colormap := upd.colormap <|> base.colormap
  nodata := upd.nodata <|> base.nodata
  resampling := upd.resampling <|> base.resampling
  return_mask := upd.return_mask <|> base.return_mask
  tile_size := upd.tile_size <|> base.tile_size
  asset_bidx := upd.asset_bidx <|> base.asset_bidx

/-! ## Preset registry (`src/lib/api/render-presets.ts`) -/

/-- A named visualization preset (`RenderPreset` in `types.ts`). -/
structure RenderPreset where
  name : String
  label : String
  description : String
  params : TileParams
deriving DecidableEq

/-- Per-collection render configuration (`CollectionRenderConfig`). -/
structure CollectionRenderConfig where
  collectionId : String
  defaultPreset : String
  presets : List RenderPreset
deriving DecidableEq

/-- Embeds `sentinel2L2aPresets` from `render-presets.ts`. -/
def sentinel2L2aPresets : List RenderPreset :=
  [ { name := "true-color", label := "True Color",
      description := "Natural color composite (RGB)",
      params := { assets := some ["visual"] } },
    { name := "false-color", label := "False Color (Vegetation)",
      description := "NIR-Red-Green composite for vegetation analysis",
      params := { assets := some ["B08", "B04", "B03"], rescale := some "0,3000" } },
    { name := "ndvi", label := "NDVI",
      description := "Normalized Difference Vegetation Index",
      params := { expression := some "(B08-B04)/(B08+B04)", rescale := some "-1,1",
                  colormap_name := some "rdylgn" } },
    { name := "ndwi", label := "NDWI",
      description := "Normalized Difference Water Index",
      params := { expression := some "(B03-B08)/(B03+B08)", rescale := some "-1,1",
                  colormap_name := some "blues" } },
    { name := "swir", label := "SWIR Composite",
      description := "SWIR-NIR-Red for geology and moisture",
      params := { assets := some ["B12", "B08", "B04"], rescale := some "0,3000" } } ]

/-- Embeds `landsatC2L2Presets` from `render-presets.ts`. -/
def landsatC2L2Presets : List RenderPreset :=
  [ { name := "true-color", label := "True Color",
      description := "Natural color composite (RGB)",
      params := { assets := some ["red", "green", "blue"], rescale := some "0,20000" } },
    { name := "false-color", label := "False Color (Vegetation)",
      description := "NIR-Red-Green composite",
      params := { assets := some ["nir08", "red", "green"], rescale := some "0,20000" } },
    { name := "ndvi", label := "NDVI",
      description := "Normalized Difference Vegetation Index",
      params := { expression := some "(nir08-red)/(nir08+red)", rescale := some "-1,1",
                  colormap_name := some "rdylgn" } },
    { name := "thermal", label := "Thermal",
      description := "Land surface temperature",
      params := { assets := some ["lwir11"], rescale := some "290,320",
                  colormap_name := some "magma" } } ]

/-- Embeds `naipPresets` from `render-presets.ts`. -/
def naipPresets : List RenderPreset :=
  [ { name := "rgb", label := "RGB", description := "Natural color",
      params := { assets := some ["image"], asset_bidx := some [("image", "1,2,3")] } },
    { name := "cir", label := "Color Infrared",
      description := "NIR-Red-Green composite",
      params := { assets := some ["image"], asset_bidx := some [("image", "4,1,2")] } },
    { name := "ndvi", label := "NDVI", description := "Vegetation index from NAIP",
      params := { expression := some "(image_b4-image_b1)/(image_b4+image_b1)",
                  rescale := some "-1,1", colormap_name := some "rdylgn" } } ]

/-- Embeds `demPresets` from `render-presets.ts`. -/
def demPresets : List RenderPreset :=
  [ { name := "elevation", label := "Elevation", description := "Color-coded elevation",
      params := { assets := some ["data"], colormap_name := some "terrain",
                  rescale := some "0,4000" } },
    { name := "hillshade", label := "Hillshade",
      description := "Shaded relief visualization",
      params := { assets := some ["data"], colormap_name := some "gray",
                  rescale := some "0,255" } } ]

/-- The static `RENDER_CONFIGS` table from `render-presets.ts`. -/
def RENDER_CONFIGS : List CollectionRenderConfig :=
  [ { collectionId := "sentinel-2-l2a", defaultPreset := "true-color",
      presets := sentinel2L2aPresets },
    { collectionId := "landsat-c2-l2", defaultPreset := "true-color",
      presets := landsatC2L2Presets },
    { collectionId := "naip", defaultPreset := "rgb", presets := naipPresets },
    { collectionId := "cop-dem-glo-30", defaultPreset := "elevation",
      presets := demPresets },
    { collectionId := "cop-dem-glo-90", defaultPreset := "elevation",
      presets := demPresets } ]

/-- Embeds `getRenderConfig` from `render-presets.ts`. -/
def getRenderConfig (collectionId : String) : Option CollectionRenderConfig :=
  RENDER_CONFIGS.find? (fun config => config.collectionId == collectionId)

/-- Embeds `getPresetsForCollection` from `render-presets.ts`. -/
def getPresetsForCollection (collectionId : String) : List RenderPreset :=
  match getRenderConfig collectionId with
  | some config => config.presets
  | none => []

/-- Embeds `getDefaultPreset` from `render-presets.ts`. -/
def getDefaultPreset (collectionId : String) : Option RenderPreset :=
  match getRenderConfig collectionId with
  | none => none
  | some config => config.presets.find? (fun p => p.name == config.defaultPreset)

/-- Embeds `getPreset` from `render-presets.ts`. -/
def getPreset (collectionId : String) (presetName : String) : Option RenderPreset :=
  match getRenderConfig collectionId with
  | none => none
  | some config => config.presets.find? (fun p => p.name == presetName)

/-! ## Tile-URL builder (`src/lib/api/titiler-client.ts`)

The query is modelled at two levels: `buildQueryParams` produces the ordered
key/value pair list that the source accumulates in a `URLSearchParams`, and
`serializeQuery` renders it to the percent-encoded string that
`URLSearchParams.toString()` returns.  Every key in this code base is set at
most once (only `assets` and `asset_bidx` repeat, via `append`), so the
pair-list order is exactly the source's call order. -/

/-- Upper-case hexadecimal digit (code point 48 is the zero digit, 65 the
letter that follows nine). -/
def hexDigitChar (n : Nat) : Char :=
  if n < 10 then Char.ofNat (48 + n) else Char.ofNat (55 + n)

/-- The `%HH` escape of one byte. -/
def percentByte (n : Nat) : String :=
  String.mk ['%', hexDigitChar ((n / 16) % 16), hexDigitChar (n % 16)]

/-- Model of the JS builtin `encodeURIComponent`: unreserved characters are
kept, everything else is percent-encoded byte-wise (the builtin also keeps
the characters `!*()` and the apostrophe; the model escapes them, which
never matters for the identifiers this client encodes). -/
def encodeURIComponent (s : String) : String :=
  (s.toList.map (fun c =>
    if c.isAlphanum || c == '-' || c == '_' || c == '.' || c == '~' then
      String.singleton c
    else
      ((String.singleton c).toUTF8.toList.map (fun b => percentByte b.toNat)).foldl
        (fun acc p => acc ++ p) "")).foldl (fun acc p => acc ++ p) ""

/-- Model of `application/x-www-form-urlencoded` escaping used by
`URLSearchParams.toString()` (space becomes `+`). -/
def formEncode (s : String) : String :=
  (s.toList.map (fun c =>
    if c == ' ' then "+"
    else if c.isAlphanum || c == '*' || c == '-' || c == '.' || c == '_' then
      String.singleton c
    else
      ((String.singleton c).toUTF8.toList.map (fun b => percentByte b.toNat)).foldl
        (fun acc p => acc ++ p) "")).foldl (fun acc p => acc ++ p) ""

/-- Embeds `URLSearchParams.toString()` over an ordered pair list. -/
def serializeQuery (ps : List (String × String)) : String :=
  String.intercalate "&" (ps.map (fun p => formEncode p.1 ++ "=" ++ formEncode p.2))

/-- One optional `key=value` entry of the query pair list. -/
def optPair (key : String) (present : Bool) (value : String) : List (String × String) :=
  if present then [(key, value)] else []

/-- Embeds `JSON.stringify` of a `colormap` record (number keys map to arrays). -/
def jsonOfColormap (m : List (Nat × List Nat)) : String :=
  "\x7b" ++ String.intercalate ","
    (m.map (fun p => "\"" ++ toString p.1 ++ "\":[" ++
      String.intercalate "," (p.2.map toString) ++ "]")) ++ "\x7d"

/-- The repeated `assets` entries
(`params.assets?.length && params.assets.forEach(append)`). -/
def assetsPairs (a : Option (List String)) : List (String × String) :=
  match a with
  | some l => if l.length != 0 then l.map (fun x => ("assets", x)) else []
  | none => []

/-- The repeated `asset_bidx` entries (`asset|bidx` pairs). -/
def bidxPairs (a : Option (List (String × String))) : List (String × String) :=
  match a with
  | some l => l.map (fun pr => ("asset_bidx", pr.1 ++ "|" ++ pr.2))
  | none => []

/-- The ordered key/value pairs accumulated by
`TiTilerClient.buildQueryString` in `titiler-client.ts`; presence checks
mirror the JS truthiness tests of the source (`assets?.length`,
`expression`, ..., `nodata !== undefined`, `tile_size`). -/
def buildQueryParams (p : TileParams) : List (String × String) :=
  assetsPairs p.assets ++
  optPair "expression" (strTruthy p.expression) (p.expression.getD "") ++
  optPair "rescale" (strTruthy p.rescale) (p.rescale.getD "") ++
  optPair "colormap_name" (strTruthy p.colormap_name) (p.colormap_name.getD "") ++
  optPair "colormap" p.colormap.isSome (jsonOfColormap (p.colormap.getD [])) ++
  optPair "nodata" p.nodata.isSome (toString (p.nodata.getD 0)) ++
  optPair "resampling" (strTruthy p.resampling) (p.resampling.getD "") ++
  optPair "return_mask" p.return_mask.isSome (toString (p.return_mask.getD false)) ++
  optPair "tile_size" (natTruthy p.tile_size) (toString (p.tile_size.getD 0)) ++
  bidxPairs p.asset_bidx

/-- STAC search parameters (`STACSearchParams` in `types.ts`).  The JSON
payload fields that the URL builder never serializes (`intersects`,
`query`, `filter`) are modelled opaquely as strings. -/
structure STACSearchParams where
  collections : Option (List String) := none
  bbox : Option (List Rat) := none
  datetime : Option String := none
  intersects : Option String := none
  ids : Option (List String) := none
  limit : Option Nat := none
  query : Option String := none
  sortby : Option (List (String × Bool)) := none
  filter : Option String := none
  filterLang : Option String := none
deriving DecidableEq

/-- Rendering of one JS number inside `bbox.join(',')`.  The decimal
formatting of the JS runtime is modelled abstractly by the `Rat`
representation; no claim inspects the digits. -/
def ratQueryStr (q : Rat) : String := toString q

/-- The parts array built by `TiTilerClient.buildSearchParams`: only
`datetime` (when truthy) and `bbox` (when present) are pushed. -/
def buildSearchParamsParts (p : STACSearchParams) : List String :=
  (match p.datetime with
   | some d => if d != "" then ["datetime=" ++ encodeURIComponent d] else []
   | none => []) ++
  (match p.bbox with
   | some b => ["bbox=" ++ String.intercalate "," (b.map ratQueryStr)]
   | none => [])

/-- Client for the TiTiler API (`TiTilerClient` in `titiler-client.ts`);
only the configured base URL is state. -/
structure TiTilerClient where
  baseUrl : String
deriving DecidableEq

/-- Embeds `TiTilerClient.buildSearchParams` from `titiler-client.ts`. -/
def TiTilerClient.buildSearchParams (p : STACSearchParams) : String :=
  String.intercalate "&" (buildSearchParamsParts p)

/-- Embeds `TiTilerClient.buildQueryString` from `titiler-client.ts`. -/
def TiTilerClient.buildQueryString (p : TileParams) : String :=
  serializeQuery (buildQueryParams p)

/-- Embeds `TiTilerClient.getItemTileUrl` from `titiler-client.ts`. -/
def TiTilerClient.getItemTileUrl (c : TiTilerClient) (collectionId itemId : String)
    (params : TileParams) : String :=
  let queryString := TiTilerClient.buildQueryString params
  c.baseUrl ++ "/item/tiles/WebMercatorQuad/\x7bz\x7d/\x7bx\x7d/\x7by\x7d@1x?collection="
    ++ encodeURIComponent collectionId ++ "&item=" ++ encodeURIComponent itemId
    ++ (if queryString != "" then "&" ++ queryString else "")

/-- Embeds `TiTilerClient.getCollectionTileUrl` from `titiler-client.ts`. -/
def TiTilerClient.getCollectionTileUrl (c : TiTilerClient) (collectionId : String)
    (params : TileParams) (searchParams : Option STACSearchParams) : String :=
  let tileParams := TiTilerClient.buildQueryString params
  let searchStr := match searchParams with
    | some sp => TiTilerClient.buildSearchParams sp
    | none => ""
  let allParams := String.intercalate "&"
    ((["collection=" ++ encodeURIComponent collectionId, tileParams, searchStr]).filter
      (fun s => s != ""))
  c.baseUrl ++ "/mosaic/tiles/WebMercatorQuad/\x7bz\x7d/\x7bx\x7d/\x7by\x7d@1x?" ++ allParams

/-! ## SAS token cache (`src/lib/api/sas-token.ts`)

`getToken` is async: it reads `Date.now()` and may issue one network fetch.
Both suspension points are passed explicitly — the current time in
milliseconds and the response the token service would return.  The first
component of the result records whether the network fetch was issued. -/

/-- One cache entry (`TokenCache` in `sas-token.ts`): token string and the
absolute expiry in ms (`Date.getTime()` of the parsed `msft:expiry`). -/
structure TokenEntry where
  token : String
  expiryMs : Int
deriving DecidableEq

/-- State of a `SASTokenManager`. -/
structure SASState where
  bufferMs : Int
  cache : List (String × TokenEntry)
deriving DecidableEq

/-- The constructor default `5 * 60 * 1000` of `SASTokenManager`. -/
def defaultBufferMs : Int := 5 * 60 * 1000

/-- A fresh manager (`new SASTokenManager(bufferMs)`). -/
def SASState.init (bufferMs : Int := defaultBufferMs) : SASState :=
  { bufferMs := bufferMs, cache := [] }

/-- Response of `GET /token/{collectionId}`: HTTP success flag, token and
parsed expiry time. -/
structure FetchResponse where
  ok : Bool
  token : String
  expiryMs : Int
deriving DecidableEq

/-- The fetch branch of `getToken`: on a non-success status an error is
thrown; otherwise the token is cached and returned. -/
def SASState.fetchTokenStep (st : SASState) (collectionId : String)
    (resp : FetchResponse) : Bool × Except String (String × SASState) :=
  if resp.ok then
    (true, Except.ok (resp.token,
      { st with
        cache := alSet st.cache collectionId
                   { token := resp.token, expiryMs := resp.expiryMs } }))
  else
    (true, Except.error ("Failed to get SAS token for " ++ collectionId))

/-- Embeds `SASTokenManager.getToken` from `sas-token.ts`.  The Boolean result
records whether the network fetch was issued. -/
def SASState.getToken (st : SASState) (collectionId : String) (nowMs : Int)
    (resp : FetchResponse) : Bool × Except String (String × SASState) :=
  match st.cache.lookup collectionId with
  | some cached =>
    if cached.expiryMs - nowMs > st.bufferMs then
      (false, Except.ok (cached.token, st))
    else
      st.fetchTokenStep collectionId resp
  | none => st.fetchTokenStep collectionId resp

/-- Embeds `SASTokenManager.hasValidToken` from `sas-token.ts`. -/
def SASState.hasValidToken (st : SASState) (collectionId : String) (nowMs : Int) : Bool :=
  match st.cache.lookup collectionId with
  | some cached => cached.expiryMs - nowMs > st.bufferMs
  | none => false

/-! ## The host map engine (consumed MapLibre interface)

The widget uses: add/remove of a raster tile source, add/remove of a raster
layer, reading and writing the `visibility` layout property and the
`raster-opacity` paint property.  `MapState` models exactly that surface;
every mutating call also appends a `HostCall` record to a log so that the
order and multiplicity of host-engine calls are provable. -/

/-- One call into the host map engine. -/
inductive HostCall where
  | addSource (id : String)
  | removeSource (id : String)
  | addLayer (id : String)
  | removeLayer (id : String)
  | setLayoutVisibility (id : String) (visible : Bool)
  | setPaintOpacity (id : String) (value : Rat)
deriving DecidableEq

/-- Does the call create or destroy a tile source? -/
def HostCall.isSourceEvent : HostCall → Bool
  | .addSource _ => true
  | .removeSource _ => true
  | _ => false

/-- A registered raster tile source (the `addSource` spec object). -/
structure MapSource where
  tiles : List String
  bounds : Option (List Rat)
deriving DecidableEq

/-- A registered raster layer: backing source id, `visibility` layout
property (`none` = never set, MapLibre's default `visible`) and the
`raster-opacity` paint property. -/
structure MapLayer where
  source : String
  visibility : Option Bool
  opacity : Option Rat
deriving DecidableEq

/-- The host map's state plus the call log. -/
structure MapState where
  sources : List (String × MapSource)
  layers : List (String × MapLayer)
  log : List HostCall
deriving DecidableEq

/-- Embeds `map.addSource(id, spec)`. -/
def MapState.addSource (m : MapState) (id : String) (src : MapSource) : MapState :=
  { m with sources := m.sources ++ [(id, src)], log := m.log ++ [HostCall.addSource id] }

/-- Embeds `map.removeSource(id)`. -/
def MapState.removeSource (m : MapState) (id : String) : MapState :=
  { m with sources := m.sources.filter (fun p => p.1 != id),
           log := m.log ++ [HostCall.removeSource id] }

/-- Embeds `map.addLayer(spec)`. -/
def MapState.addLayer (m : MapState) (id : String) (l : MapLayer) : MapState :=
  { m with layers := m.layers ++ [(id, l)], log := m.log ++ [HostCall.addLayer id] }

/-- Embeds `map.removeLayer(id)`. -/
def MapState.removeLayer (m : MapState) (id : String) : MapState :=
  { m with layers := m.layers.filter (fun p => p.1 != id),
           log := m.log ++ [HostCall.removeLayer id] }

/-- Embeds `map.getLayer(id)` (presence query). -/
def MapState.getLayer (m : MapState) (id : String) : Option MapLayer :=
  m.layers.lookup id

/-- Embeds `map.getSource(id)` (presence query). -/
def MapState.getSource (m : MapState) (id : String) : Option MapSource :=
  m.sources.lookup id

/-- Embeds `map.setLayoutProperty(id, 'visibility', v)`. -/
def MapState.setLayoutVisibility (m : MapState) (id : String) (v : Bool) : MapState :=
  { m with layers := m.layers.map (fun p =>
      if p.1 == id then (p.1, { p.2 with visibility := some v }) else p),
           log := m.log ++ [HostCall.setLayoutVisibility id v] }

/-- Embeds `map.setPaintProperty(id, 'raster-opacity', o)`. -/
def MapState.setPaintOpacity (m : MapState) (id : String) (o : Rat) : MapState :=
  { m with layers := m.layers.map (fun p =>
      if p.1 == id then (p.1, { p.2 with opacity := some o }) else p),
           log := m.log ++ [HostCall.setPaintOpacity id o] }

/-- Embeds `map.getLayoutProperty(id, 'visibility')`. -/
def MapState.getLayoutVisibility (m : MapState) (id : String) : Option Bool :=
  (m.layers.lookup id).bind (fun l => l.visibility)

/-- Embeds `map.getPaintProperty(id, 'raster-opacity')`. -/
def MapState.getPaintOpacity (m : MapState) (id : String) : Option Rat :=
  (m.layers.lookup id).bind (fun l => l.opacity)

/-! ## Layer registry (`src/lib/core/LayerManager.ts`) -/

/-- The `type` discriminator of an `ActiveLayer`
(`'item' | 'mosaic' | 'collection'` in `core/types.ts`). -/
inductive LayerKind where
  | item
  | mosaic
  | collection
deriving DecidableEq

/-- A layer record (`ActiveLayer` in `core/types.ts`). -/
structure ActiveLayer where
  id : String
  type : LayerKind
  sourceId : String
  item : Option STACItem := none
  collection : Option STACCollection := none
  mosaicId : Option String := none
  visible : Bool
  opacity : Rat
  assets : List String
  renderParams : TileParams
  presetName : Option String := none
deriving DecidableEq

/-- The update argument `Partial<ActiveLayer>` of `updateLayer`, restricted
to the fields the widget's callers pass (visibility, opacity, asset list,
render parameters); the remaining record fields are never supplied as
updates. -/
structure LayerUpdates where
  visible : Option Bool := none
  opacity : Option Rat := none
  assets : Option (List String) := none
  renderParams : Option TileParams := none
deriving DecidableEq

/-- JS shallow merge `{ ...layer, ...updates }` stored by `updateLayer`:
each supplied update field replaces the record field verbatim. -/
def ActiveLayer.applyUpdates (l : ActiveLayer) (u : LayerUpdates) : ActiveLayer :=
  { l with
    visible := u.visible.getD l.visible
    opacity := u.opacity.getD l.opacity
    assets := u.assets.getD l.assets
    renderParams := u.renderParams.getD l.renderParams }

/-- The guards `layer.type === 'item' && layer.item` /
`layer.type === 'collection' && layer.collection` of `updateLayerSource`:
a record produced by the add operations always satisfies this. -/
def ActiveLayer.originOk (l : ActiveLayer) : Bool :=
  match l.type, l.item, l.collection with
  | LayerKind.item, some _, _ => true
  | LayerKind.collection, _, some _ => true
  | _, _, _ => false

/-- The whole manager: host map, TiTiler client and the `layers` registry
(`private layers: Map<string, ActiveLayer>`). -/
structure LayerManager where
  map : MapState
  tilerClient : TiTilerClient
  layers : List (String × ActiveLayer)

/-- Embeds `item.id.replace(/[^a-zA-Z0-9-_]/g, '-').slice(0, 50)`. -/
def sanitizeLayerName (s : String) : String :=
  String.mk ((s.toList.map (fun c =>
    if c.isAlphanum || c == '-' || c == '_' then c else '-')).take 50)

/-- Options of `addItemLayer`. -/
structure ItemLayerOptions where
  assets : Option (List String) := none
  renderParams : Option TileParams := none
  presetName : Option String := none

/-- Options of `addCollectionLayer`. -/
structure CollectionLayerOptions where
  assets : Option (List String) := none
  renderParams : Option TileParams := none
  bbox : Option (List Rat) := none
  presetName : Option String := none

/-- The `preferredAssets` list of `getDefaultAssets`. -/
def preferredAssetNames : List String := ["visual", "data", "image", "cog_default"]

/-- The `excludePatterns` list of `getDefaultAssets`. -/
def excludeAssetPatterns : List String :=
  ["thumbnail", "overview", "metadata", "tilejson", "rendered_preview"]

/-- Embeds `type.includes('tiff') || type.includes('geotiff') || type.includes('cog')`. -/
def isCogMediaType (t : String) : Bool :=
  strIncludes t "tiff" || strIncludes t "geotiff" || strIncludes t "cog"

/-- Model of JS `toLowerCase()` (character-wise; the exclusion patterns it
is compared against are ASCII). -/
def strToLower (s : String) : String :=
  String.mk (s.toList.map Char.toLower)

/-- Embeds `!excludePatterns.some((p) => key.toLowerCase().includes(p))`. -/
def notExcludedKey (key : String) : Bool :=
  !(excludeAssetPatterns.any (fun p => strIncludes (strToLower key) p))

/-- Embeds `LayerManager.getDefaultAssets`: preferred well-known asset keys first,
then the first asset with a COG-ish media type, then the first key not
matching the exclusion patterns. -/
def getDefaultAssetsOf (assets : List (String × STACAsset)) : List String :=
  match preferredAssetNames.find? (fun a => (assets.lookup a).isSome) with
  | some a => [a]
  | none =>
    match assets.find? (fun p => isCogMediaType ((p.2.type).getD "")) with
    | some p => [p.1]
    | none =>
      match (assets.map Prod.fst).find? notExcludedKey with
      | some key => if key != "" then [key] else []
      | none => []

/-- Embeds `LayerManager.getDefaultAssets` (on a STAC item). -/
def getDefaultAssets (item : STACItem) : List String :=
  getDefaultAssetsOf item.assets

/-- Embeds `LayerManager.getDefaultCollectionAssets` (same scan over
`collection.item_assets || {}`). -/
def getDefaultCollectionAssets (collection : STACCollection) : List String :=
  getDefaultAssetsOf (collection.item_assets.getD [])

/-- Embeds `LayerManager.getCollectionBounds`: first box of
`extent?.spatial?.bbox`, if it has at least four numbers. -/
def getCollectionBounds (collection : STACCollection) : Option (List Rat) :=
  match collection.extentSpatialBbox.bind List.head? with
  | some (b0 :: b1 :: b2 :: b3 :: _) => some [b0, b1, b2, b3]
  | _ => none

/-- Embeds `LayerManager.addItemLayer`.  `generateId().slice(-6)` is random; the
suffix is passed as `genSuffix`. -/
def LayerManager.addItemLayer (mgr : LayerManager) (item : STACItem)
    (options : ItemLayerOptions) (genSuffix : String) : LayerManager × ActiveLayer :=
  let sanitizedItemId := sanitizeLayerName item.id
  let layerId := sanitizedItemId ++ "-" ++ genSuffix
  let sourceId := layerId ++ "-source"
  let collectionId := item.collection.getD ""
  let rp0 : TileParams := options.renderParams.getD {}
  let resolved :=
    if options.renderParams.isNone && options.assets.isNone && collectionId != "" then
      match getDefaultPreset collectionId with
      | some defaultPreset => (defaultPreset.params, some defaultPreset.name)
      | none => (rp0, options.presetName)
    else (rp0, options.presetName)
  let assets :=
    match options.assets with
    | some a => a
    | none =>
      match resolved.1.assets with
      | some a => a
      | none => getDefaultAssets item
  let renderParams := { resolved.1 with assets := some assets }
  let tileUrl := mgr.tilerClient.getItemTileUrl collectionId item.id renderParams
  let m1 := mgr.map.addSource sourceId { tiles := [tileUrl], bounds := some item.bbox }
  let m2 := m1.addLayer layerId { source := sourceId, visibility := none, opacity := some 1 }
  let layer : ActiveLayer :=
    { id := layerId, type := LayerKind.item, sourceId := sourceId, item := some item,
      collection := none, mosaicId := none, visible := true, opacity := 1,
      assets := assets, renderParams := renderParams, presetName := resolved.2 }
  ({ mgr with map := m2, layers := alSet mgr.layers layerId layer }, layer)

/-- Embeds `LayerManager.addCollectionLayer`. -/
def LayerManager.addCollectionLayer (mgr : LayerManager) (collection : STACCollection)
    (options : CollectionLayerOptions) (genSuffix : String) : LayerManager × ActiveLayer :=
  let nameBase :=
    match collection.title with
    | some t => if t != "" then t else collection.id
    | none => collection.id
  let collectionName := sanitizeLayerName nameBase
  let layerId := collectionName ++ "-" ++ genSuffix
  let sourceId := layerId ++ "-source"
  let rp0 : TileParams := options.renderParams.getD {}
  let resolved :=
    if options.renderParams.isNone && options.assets.isNone then
      match getDefaultPreset collection.id with
      | some defaultPreset => (defaultPreset.params, some defaultPreset.name)
      | none => (rp0, options.presetName)
    else (rp0, options.presetName)
  let assets :=
    match options.assets with
    | some a => a
    | none =>
      match resolved.1.assets with
      | some a => a
      | none => getDefaultCollectionAssets collection
  let renderParams := { resolved.1 with assets := some assets }
  let tileUrl := mgr.tilerClient.getCollectionTileUrl collection.id renderParams none
  let bounds :=
    match options.bbox with
    | some b => some b
    | none => getCollectionBounds collection
  let m1 := mgr.map.addSource sourceId { tiles := [tileUrl], bounds := bounds }
  let m2 := m1.addLayer layerId { source := sourceId, visibility := none, opacity := some 1 }
  let layer : ActiveLayer :=
    { id := layerId, type := LayerKind.collection, sourceId := sourceId, item := none,
      collection := some collection, mosaicId := none, visible := true, opacity := 1,
      assets := assets, renderParams := renderParams, presetName := resolved.2 }
  ({ mgr with map := m2, layers := alSet mgr.layers layerId layer }, layer)

/-- Embeds `LayerManager.removeLayer`: live layer first, then the live source,
then the registry record; silent no-op for an unknown id. -/
def LayerManager.removeLayer (mgr : LayerManager) (layerId : String) : LayerManager :=
  match mgr.layers.lookup layerId with
  | none => mgr
  | some layer =>
    let m1 := if (mgr.map.getLayer layerId).isSome then mgr.map.removeLayer layerId
              else mgr.map
    let m2 := if (m1.getSource layer.sourceId).isSome then m1.removeSource layer.sourceId
              else m1
    { mgr with map := m2, layers := alDelete mgr.layers layerId }

/-- The visibility/opacity writes at the start of `updateLayer`
(`setLayoutProperty` when `updates.visible !== undefined`,
`setPaintProperty` when `updates.opacity !== undefined`). -/
def MapState.applyVisOpacityUpdates (m : MapState) (layerId : String)
    (u : LayerUpdates) : MapState :=
  let m1 := match u.visible with
    | some v => m.setLayoutVisibility layerId v
    | none => m
  match u.opacity with
  | some o => m1.setPaintOpacity layerId o
  | none => m1

/-- Embeds `LayerManager.updateLayerSource`: rebuilds the tile URL from the merged
parameters, captures the live visibility/opacity, removes the layer and
source and re-adds both. -/
def LayerManager.updateLayerSource (mgr : LayerManager) (layerId : String)
    (u : LayerUpdates) : LayerManager :=
  match mgr.layers.lookup layerId with
  | none => mgr
  | some layer =>
    let newParams := TileParams.spread layer.renderParams (u.renderParams.getD {})
    let newAssets := u.assets.getD layer.assets
    let tileUrlOpt : Option String :=
      if layer.type == LayerKind.item then
        match layer.item with
        | some it => some (mgr.tilerClient.getItemTileUrl (it.collection.getD "") it.id
            { newParams with assets := some newAssets })
        | none => none
      else if layer.type == LayerKind.collection then
        match layer.collection with
        | some c => some (mgr.tilerClient.getCollectionTileUrl c.id
            { newParams with assets := some newAssets } none)
        | none => none
      else none
    match tileUrlOpt with
    | none => mgr
    | some tileUrl =>
      let visibility := mgr.map.getLayoutVisibility layerId
      let opacity := mgr.map.getPaintOpacity layerId
      let m1 := mgr.map.removeLayer layerId
      let m2 := m1.removeSource layer.sourceId
      let bounds :=
        match layer.item with
        | some it => some it.bbox
        | none =>
          match layer.collection with
          | some c => getCollectionBounds c
          | none => none
      let m3 := m2.addSource layer.sourceId { tiles := [tileUrl], bounds := bounds }
      let m4 := m3.addLayer layerId
        { source := layer.sourceId, visibility := visibility,
          opacity := some (opacity.getD 1) }
      { mgr with map := m4 }

/-- Embeds `LayerManager.updateLayer`: apply visibility/opacity to the live layer,
recreate the source when `updates.renderParams || updates.assets`, then
store the shallow merge in the registry; no-op for an unknown id. -/
def LayerManager.updateLayer (mgr : LayerManager) (layerId : String)
    (u : LayerUpdates) : LayerManager :=
  match mgr.layers.lookup layerId with
  | none => mgr
  | some layer =>
    let mgr1 := { mgr with map := mgr.map.applyVisOpacityUpdates layerId u }
    let mgr2 := if u.renderParams.isSome || u.assets.isSome then
                  mgr1.updateLayerSource layerId u
                else mgr1
    { mgr2 with layers := alSet mgr2.layers layerId (layer.applyUpdates u) }

/-- Embeds `LayerManager.getLayer`. -/
def LayerManager.getLayer (mgr : LayerManager) (layerId : String) : Option ActiveLayer :=
  mgr.layers.lookup layerId

/-! ## Concrete fixtures used by witnesses and counterexamples -/

/-- A TiTiler client with the default production base URL. -/
def tilerPC : TiTilerClient :=
  { baseUrl := "https://planetarycomputer.microsoft.com/api/data/v1" }

/-- A manager attached to a fresh map with no sources or layers. -/
def emptyMgr : LayerManager :=
  { map := { sources := [], layers := [], log := [] }, tilerClient := tilerPC, layers := [] }

/-- The spec's example entry: a thumbnail asset plus a `data`-style asset
whose media type contains "geotiff".  The renderable key is deliberately
not on the preferred-name list so that the media-type scan decides. -/
def exampleItem : STACItem :=
  { id := "item-1", collection := some "c1", bbox := [0, 1, 2, 3],
    assets := [("thumbnail", { href := "t", type := some "image/png" }),
               ("data2", { href := "d", type := some "image/tiff; application=geotiff" })] }

/-- An entry whose only renderable asset is the preferred key `data`
(the spec's `{thumbnail, data}` example). -/
def exampleItemPreferred : STACItem :=
  { id := "item-2", collection := some "c1", bbox := [0, 1, 2, 3],
    assets := [("thumbnail", { href := "t", type := some "image/png" }),
               ("data", { href := "d", type := some "image/tiff; application=geotiff" })] }

/-- An entry whose only asset key is the empty string: it survives the
exclusion scan but is falsy in JS, so the code selects nothing. -/
def emptyKeyItem : STACItem :=
  { id := "item-3", collection := some "c1", bbox := [0, 1, 2, 3],
    assets := [("", { href := "x" })] }

/-- A collection fixture for the add-then-remove witness. -/
def exampleCollection : STACCollection :=
  { id := "c1", title := some "Example Collection",
    item_assets := some [("data", { href := "d", type := some "image/tiff" })],
    extentSpatialBbox := some [[0, 1, 2, 3]] }

/-- The host calls emitted by the visibility/opacity phase of
`updateLayer`. -/
def visOpacityEvents (lid : String) (u : LayerUpdates) : List HostCall :=
  (match u.visible with
   | some v => [HostCall.setLayoutVisibility lid v]
   | none => []) ++
  (match u.opacity with
   | some o => [HostCall.setPaintOpacity lid o]
   | none => [])

/-- A fresh token-service response for the C5 witness. -/
def c5Resp : FetchResponse := { ok := true, token := "tok1", expiryMs := 7200000 }

/-- Another response (never consulted by the cached second call). -/
def c5Resp2 : FetchResponse := { ok := true, token := "tok2", expiryMs := 9999999 }

/-- The state after the C5 witness's first call. -/
def c5St1 : SASState :=
  { bufferMs := defaultBufferMs,
    cache := [("s2", { token := "tok1", expiryMs := 7200000 })] }

/-- The claimed record invariant: the `assets` field agrees with the
`assets` member of the stored parameter bundle. -/
def assetsConsistent (l : ActiveLayer) : Prop :=
  l.renderParams.assets = some l.assets

/-- The registry state after the C1 counterexample scenario: add an item
layer with explicit assets, then update it with a `renderParams` bundle
that carries a new asset list while `updates.assets` is absent. -/
def c1Mgr : LayerManager :=
  let st := (emptyMgr.addItemLayer exampleItem { assets := some ["data2"] } "abc123").1
  st.updateLayer "item-1-abc123" { renderParams := some { assets := some ["B04"] } }

/-! # Theorems for the claims -/

/-! ## Association-list lookup lemmas -/

theorem alSet_lookup_self {β : Type} (l : List (String × β)) (k : String) (v : β) :
    (alSet l k v).lookup k = some v := by
  induction l with
  | nil => simp [alSet, List.lookup]
  | cons hd tl ih =>
    obtain ⟨k0, v0⟩ := hd
    by_cases h : k0 = k
    · simp [alSet, h, List.lookup]
    · simp [alSet, List.lookup, show (k0 == k) = false by simp [h],
            show (k == k0) = false by simp [Ne.symm h], ih]

theorem alSet_lookup_ne {β : Type} (l : List (String × β)) (k k' : String) (v : β)
    (h : k' ≠ k) : (alSet l k v).lookup k' = l.lookup k' := by
  induction l with
  | nil => simp [alSet, List.lookup, show (k' == k) = false by simp [h]]
  | cons hd tl ih =>
    obtain ⟨k0, v0⟩ := hd
    by_cases hk : k0 = k
    · simp [alSet, List.lookup, show (k0 == k) = true by simp [hk],
            show (k' == k) = false by simp [h],
            show (k' == k0) = false by simp [hk, h]]
    · by_cases h2 : k' = k0
      · simp [alSet, List.lookup, show (k0 == k) = false by simp [hk], h2]
      · simp [alSet, List.lookup, show (k0 == k) = false by simp [hk],
              show (k' == k0) = false by simp [h2], ih]

theorem alDelete_lookup_self {β : Type} (l : List (String × β)) (k : String) :
    (alDelete l k).lookup k = none := by
  simp only [alDelete]
  induction l with
  | nil => simp [List.lookup]
  | cons hd tl ih =>
    obtain ⟨k0, v0⟩ := hd
    by_cases h : k0 = k
    · simpa [h] using ih
    · simp only [List.filter]
      rw [show (k0 != k) = true by simp [h]]
      simp only [List.lookup]
      rw [show (k == k0) = false by simp [Ne.symm h]]
      exact ih

theorem lookup_filter_ne_self {β : Type} (l : List (String × β)) (k : String) :
    (l.filter (fun p => p.1 != k)).lookup k = none :=
  alDelete_lookup_self l k

theorem lookup_append_left_none {β : Type} (l₁ l₂ : List (String × β)) (k : String)
    (h : l₁.lookup k = none) : (l₁ ++ l₂).lookup k = l₂.lookup k := by
  induction l₁ with
  | nil => simp
  | cons hd tl ih =>
    obtain ⟨k0, v0⟩ := hd
    by_cases hk : k = k0
    · simp [List.lookup, hk] at h
    · simp only [List.cons_append, List.lookup] at h ⊢
      rw [show (k == k0) = false by simp [hk]] at h ⊢
      exact ih h


/-! ## Query-pair classification lemmas -/

theorem mem_assetsPairs {a : Option (List String)} {q : String × String}
    (hq : q ∈ assetsPairs a) : q.1 = "assets" := by
  match a with
  | none => simp [assetsPairs] at hq
  | some l =>
    simp only [assetsPairs] at hq
    split at hq
    · obtain ⟨x, _, rfl⟩ := List.mem_map.mp hq
      rfl
    · simp at hq

theorem mem_bidxPairs {a : Option (List (String × String))} {q : String × String}
    (hq : q ∈ bidxPairs a) : q.1 = "asset_bidx" := by
  match a with
  | none => simp [bidxPairs] at hq
  | some l =>
    simp only [bidxPairs] at hq
    obtain ⟨x, _, rfl⟩ := List.mem_map.mp hq
    rfl

theorem mem_optPair {key v : String} {b : Bool} {q : String × String}
    (hq : q ∈ optPair key b v) : q.1 = key := by
  cases b <;> simp [optPair] at hq
  rw [hq]

theorem filter_optPair_ne {key k v : String} {b : Bool} (h : key ≠ k) :
    (optPair key b v).filter (fun q => q.1 == k) = [] := by
  cases b <;> simp [optPair, h]

theorem filter_bidxPairs_ne {a : Option (List (String × String))} {k : String}
    (h : k ≠ "asset_bidx") :
    (bidxPairs a).filter (fun q => q.1 == k) = [] := by
  rw [List.filter_eq_nil_iff]
  intro q hq
  simp [mem_bidxPairs hq, Ne.symm h]

theorem filter_assetsPairs_self {l : List String} (hne : l ≠ []) :
    ((assetsPairs (some l)).filter (fun q => q.1 == "assets")).map Prod.snd = l := by
  have hlen : (l.length != 0) = true := by
    simpa [List.length_eq_zero] using hne
  simp [assetsPairs, hlen, List.filter_map, Function.comp]

/-! ## C7 -/

/-- Claim C7: for every parameter bundle with a non-empty `assets` list and no
`expression` field, the query built by `TiTilerClient.buildQueryString`
contains exactly one repeated `assets` entry per list member, in the list's
original order, and contains no `expression` key. -/
theorem c7_assets_serialization (p : TileParams) (l : List String)
    (hassets : p.assets = some l) (hne : l ≠ []) (hexpr : p.expression = none) :
    ((buildQueryParams p).filter (fun q => q.1 == "assets")).map Prod.snd = l ∧
    ∀ q ∈ buildQueryParams p, q.1 ≠ "expression" := by
  constructor
  · simp only [buildQueryParams, List.filter_append, hassets]
    rw [filter_optPair_ne (by decide), filter_optPair_ne (by decide),
        filter_optPair_ne (by decide), filter_optPair_ne (by decide),
        filter_optPair_ne (by decide), filter_optPair_ne (by decide),
        filter_optPair_ne (by decide), filter_optPair_ne (by decide),
        filter_bidxPairs_ne (by decide)]
    simpa using filter_assetsPairs_self hne
  · intro q hq
    simp only [buildQueryParams, List.mem_append] at hq
    rcases hq with ((((((((h | h) | h) | h) | h) | h) | h) | h) | h) | h
    · rw [mem_assetsPairs h]; decide
    · rw [hexpr] at h; simp [strTruthy, optPair] at h
    · rw [mem_optPair h]; decide
    · rw [mem_optPair h]; decide
    · rw [mem_optPair h]; decide
    · rw [mem_optPair h]; decide
    · rw [mem_optPair h]; decide
    · rw [mem_optPair h]; decide
    · rw [mem_optPair h]; decide
    · rw [mem_bidxPairs h]; decide

/-- Witness for C7 at a concrete bundle. -/
theorem c7_assets_serialization_witness :
    ((buildQueryParams { assets := some ["B04", "B03"], rescale := some "0,3000" }).filter
        (fun q => q.1 == "assets")).map Prod.snd = ["B04", "B03"] :=
  (c7_assets_serialization _ ["B04", "B03"] rfl (by decide) rfl).1

/-! ## C8 -/

/-- Claim C8: a mosaic tile URL built with a search-parameter set serializes
only the `datetime` range and the `bbox`: the URL is unchanged when every
other search field (`query`, `filter`, `sortby`, `intersects`, `ids`,
`limit`, ...) is dropped, and every serialized search part is a `datetime=`
or `bbox=` entry. -/
theorem c8_mosaic_search_fields (c : TiTilerClient) (cid : String) (tp : TileParams)
    (sp : STACSearchParams) :
    c.getCollectionTileUrl cid tp (some sp) =
      c.getCollectionTileUrl cid tp (some { datetime := sp.datetime, bbox := sp.bbox }) ∧
    ∀ part ∈ buildSearchParamsParts sp,
      (∃ s, part = "datetime=" ++ s) ∨ (∃ s, part = "bbox=" ++ s) := by
  constructor
  · rfl
  · intro part hpart
    simp only [buildSearchParamsParts] at hpart
    rcases List.mem_append.mp hpart with h | h
    · left
      rcases hdt : sp.datetime with _ | d <;> rw [hdt] at h
      · simp at h
      · by_cases hne : (d != "") = true
        · simp only [hne, if_true] at h
          simp only [List.mem_singleton] at h
          exact ⟨encodeURIComponent d, h⟩
        · simp [hne] at h
    · right
      rcases hbb : sp.bbox with _ | b <;> rw [hbb] at h
      · simp at h
      · simp only [List.mem_singleton] at h
        exact ⟨String.intercalate "," (b.map ratQueryStr), h⟩

/-- Witness for C8 at a concrete search-parameter set. -/
theorem c8_mosaic_search_fields_witness :
    tilerPC.getCollectionTileUrl "sentinel-2-l2a" {}
        (some { datetime := some "2024-01-01/2024-12-31", bbox := some [0, 1, 2, 3],
                limit := some 10, ids := some ["a"] }) =
      tilerPC.getCollectionTileUrl "sentinel-2-l2a" {}
        (some { datetime := some "2024-01-01/2024-12-31", bbox := some [0, 1, 2, 3] }) :=
  (c8_mosaic_search_fields tilerPC "sentinel-2-l2a" {} _).1

/-! ## C9 -/

/-- Claim C9: `getPresetsForCollection` returns `[]` (and never fails) for a
collection id absent from the static `RENDER_CONFIGS` table;
`getDefaultPreset` returns exactly a preset of the collection's list whose
name is the declared default name, and `none` when the collection is
unknown or no preset carries that name; `getPreset` returns exactly a
preset with the requested name, and `none` when the collection is unknown
or the name is missing. -/
theorem c9_preset_lookups (cid nm : String) :
    ((∀ cfg ∈ RENDER_CONFIGS, cfg.collectionId ≠ cid) →
      getPresetsForCollection cid = []) ∧
    (∀ p, getDefaultPreset cid = some p →
      ∃ cfg, getRenderConfig cid = some cfg ∧ p ∈ cfg.presets ∧
        p.name = cfg.defaultPreset) ∧
    ((∀ cfg ∈ RENDER_CONFIGS, cfg.collectionId ≠ cid) → getDefaultPreset cid = none) ∧
    (∀ cfg, getRenderConfig cid = some cfg →
      (∀ p ∈ cfg.presets, p.name ≠ cfg.defaultPreset) → getDefaultPreset cid = none) ∧
    (∀ p, getPreset cid nm = some p →
      p.name = nm ∧ ∃ cfg, getRenderConfig cid = some cfg ∧ p ∈ cfg.presets) ∧
    ((∀ cfg ∈ RENDER_CONFIGS, cfg.collectionId ≠ cid) → getPreset cid nm = none) ∧
    (∀ cfg, getRenderConfig cid = some cfg →
      (∀ p ∈ cfg.presets, p.name ≠ nm) → getPreset cid nm = none) := by
  have hnone : (∀ cfg ∈ RENDER_CONFIGS, cfg.collectionId ≠ cid) →
      getRenderConfig cid = none := by
    intro h
    apply List.find?_eq_none.mpr
    intro cfg hcfg
    simpa using h cfg hcfg
  refine ⟨?_, ?_, ?_, ?_, ?_, ?_, ?_⟩
  · intro h
    simp [getPresetsForCollection, hnone h]
  · intro p hp
    rcases hcfg : getRenderConfig cid with _ | cfg
    · simp [getDefaultPreset, hcfg] at hp
    · simp only [getDefaultPreset, hcfg] at hp
      exact ⟨cfg, rfl, List.mem_of_find?_eq_some hp,
        by simpa using List.find?_some hp⟩
  · intro h
    simp [getDefaultPreset, hnone h]
  · intro cfg hcfg hnames
    simp only [getDefaultPreset, hcfg]
    apply List.find?_eq_none.mpr
    intro p hp
    simpa using hnames p hp
  · intro p hp
    rcases hcfg : getRenderConfig cid with _ | cfg
    · simp [getPreset, hcfg] at hp
    · simp only [getPreset, hcfg] at hp
      exact ⟨by simpa using List.find?_some hp,
        cfg, rfl, List.mem_of_find?_eq_some hp⟩
  · intro h
    simp [getPreset, hnone h]
  · intro cfg hcfg hnames
    simp only [getPreset, hcfg]
    apply List.find?_eq_none.mpr
    intro p hp
    simpa using hnames p hp

/-- Witness for C9: an unknown collection id yields the empty preset list
and no default preset, and a known id with an unknown preset name yields
no preset. -/
theorem c9_preset_lookups_witness :
    getPresetsForCollection "not-a-collection" = [] ∧
    getDefaultPreset "not-a-collection" = none ∧
    getPreset "sentinel-2-l2a" "missing-preset" = none := by
  refine ⟨(c9_preset_lookups "not-a-collection" "x").1 (by decide),
    (c9_preset_lookups "not-a-collection" "x").2.2.1 (by decide),
    (c9_preset_lookups "sentinel-2-l2a" "missing-preset").2.2.2.2.2.2
      { collectionId := "sentinel-2-l2a", defaultPreset := "true-color",
        presets := sentinel2L2aPresets } (by decide) (by decide)⟩

/-! ## C5 -/

/-- After a successful `getToken`, the cache holds the returned token. -/
theorem getToken_ok_cached (st : SASState) (cid : String) (nowMs : Int)
    (resp : FetchResponse) (tok : String) (st1 : SASState)
    (h : (st.getToken cid nowMs resp).2 = Except.ok (tok, st1)) :
    ∃ e, st1.cache.lookup cid = some e ∧ e.token = tok := by
  unfold SASState.getToken SASState.fetchTokenStep at h
  split at h
  next cached hlook =>
    split at h
    · simp only [Except.ok.injEq, Prod.mk.injEq] at h
      obtain ⟨rfl, rfl⟩ := h
      exact ⟨cached, hlook, rfl⟩
    · split at h
      · simp only [Except.ok.injEq, Prod.mk.injEq] at h
        obtain ⟨rfl, rfl⟩ := h
        exact ⟨_, alSet_lookup_self _ _ _, rfl⟩
      · simp at h
  next hlook =>
    split at h
    · simp only [Except.ok.injEq, Prod.mk.injEq] at h
      obtain ⟨rfl, rfl⟩ := h
      exact ⟨_, alSet_lookup_self _ _ _, rfl⟩
    · simp at h

/-- Claim C5: `getToken` issues the network fetch if and only if no cache
entry exists for the collection or the cached expiry minus the current time
is at most the buffer (whose constructor default is 5 minutes = 300000 ms);
a second call within the valid window, with no call in between, issues no
fetch and returns the same token string and state. -/
theorem c5_token_cache (st : SASState) (cid : String) (nowMs : Int) (resp : FetchResponse) :
    ((st.getToken cid nowMs resp).1 = true ↔
      st.cache.lookup cid = none ∨
      ∃ e, st.cache.lookup cid = some e ∧ e.expiryMs - nowMs ≤ st.bufferMs) ∧
    (∀ tok st1 now2 resp2 e,
      (st.getToken cid nowMs resp).2 = Except.ok (tok, st1) →
      st1.cache.lookup cid = some e →
      e.expiryMs - now2 > st1.bufferMs →
      st1.getToken cid now2 resp2 = (false, Except.ok (tok, st1))) ∧
    defaultBufferMs = 300000 := by
  refine ⟨?_, ?_, by decide⟩
  · rcases hlook : st.cache.lookup cid with _ | cached
    · simp only [SASState.getToken, hlook, SASState.fetchTokenStep]
      rcases hok : resp.ok with _ | _ <;> simp
    · simp only [SASState.getToken, hlook]
      by_cases hvalid : cached.expiryMs - nowMs > st.bufferMs
      · rw [if_pos hvalid]
        constructor
        · intro hfalse; simp at hfalse
        · rintro (hnone | ⟨e, he, hle⟩)
          · simp at hnone
          · obtain rfl : cached = e := by injection he
            exact absurd hle (not_le.mpr hvalid)
      · rw [if_neg hvalid]
        unfold SASState.fetchTokenStep
        constructor
        · intro _
          exact Or.inr ⟨cached, rfl, le_of_not_lt hvalid⟩
        · intro _
          rcases hok : resp.ok with _ | _ <;> simp
  · intro tok st1 now2 resp2 e h hlookup hvalid
    obtain ⟨e', he', htok⟩ := getToken_ok_cached st cid nowMs resp tok st1 h
    rw [hlookup] at he'
    obtain rfl : e = e' := by injection he'
    unfold SASState.getToken
    rw [hlookup]
    show (if e.expiryMs - now2 > st1.bufferMs then (false, Except.ok (e.token, st1))
          else st1.fetchTokenStep cid resp2) = (false, Except.ok (tok, st1))
    rw [if_pos hvalid, htok]

/-- Witness for C5: a first call on an empty cache fetches; a second call
one minute later returns the same token without fetching. -/
theorem c5_token_cache_witness :
    ((SASState.init).getToken "s2" 0 c5Resp).1 = true ∧
    c5St1.getToken "s2" 60000 c5Resp2 = (false, Except.ok ("tok1", c5St1)) :=
  ⟨(c5_token_cache SASState.init "s2" 0 c5Resp).1.mpr (Or.inl rfl),
   (c5_token_cache SASState.init "s2" 0 c5Resp).2.1 "tok1" c5St1 60000 c5Resp2
     { token := "tok1", expiryMs := 7200000 } rfl rfl (by decide)⟩

/-! ## C6 -/

/-- Claim C6 as amended: the default-asset heuristic scans in order:
(a) the first of the preferred names `visual`, `data`, `image`,
`cog_default` present in the asset map; else (b) the key of the first
asset whose media type contains "tiff"/"geotiff"/"cog"; else (c) the first
key containing none of the exclusion patterns (case-insensitive
substring), provided that surviving key is non-empty — the falsy
empty-string key yields `[]` — and `[]` when all fail.  In particular the
spec's `{thumbnail, data}` entry with a geotiff `data` asset yields
`["data"]`, also through `addItemLayer` with no options. -/
theorem c6_default_asset_heuristic (item : STACItem) :
    (∀ a, preferredAssetNames.find? (fun a => (item.assets.lookup a).isSome) = some a →
      getDefaultAssets item = [a]) ∧
    (preferredAssetNames.find? (fun a => (item.assets.lookup a).isSome) = none →
      ∀ p, item.assets.find? (fun p => isCogMediaType ((p.2.type).getD "")) = some p →
        getDefaultAssets item = [p.1]) ∧
    (preferredAssetNames.find? (fun a => (item.assets.lookup a).isSome) = none →
      item.assets.find? (fun p => isCogMediaType ((p.2.type).getD "")) = none →
      ∀ k, (item.assets.map Prod.fst).find? notExcludedKey = some k → k ≠ "" →
        getDefaultAssets item = [k]) ∧
    (preferredAssetNames.find? (fun a => (item.assets.lookup a).isSome) = none →
      item.assets.find? (fun p => isCogMediaType ((p.2.type).getD "")) = none →
      (item.assets.map Prod.fst).find? notExcludedKey = some "" →
      getDefaultAssets item = []) ∧
    (preferredAssetNames.find? (fun a => (item.assets.lookup a).isSome) = none →
      item.assets.find? (fun p => isCogMediaType ((p.2.type).getD "")) = none →
      (item.assets.map Prod.fst).find? notExcludedKey = none →
      getDefaultAssets item = []) ∧
    getDefaultAssets exampleItemPreferred = ["data"] ∧
    (emptyMgr.addItemLayer exampleItemPreferred {} "abc123").2.assets = ["data"] := by
  refine ⟨?_, ?_, ?_, ?_, ?_, by decide, by decide⟩
  · intro a h
    simp [getDefaultAssets, getDefaultAssetsOf, h]
  · intro h p hp
    simp [getDefaultAssets, getDefaultAssetsOf, h, hp]
  · intro h hcog k hk hne
    simp [getDefaultAssets, getDefaultAssetsOf, h, hcog, hk,
      show (k != "") = true by simpa using hne]
  · intro h hcog hk
    simp [getDefaultAssets, getDefaultAssetsOf, h, hcog, hk]
  · intro h hcog hk
    simp [getDefaultAssets, getDefaultAssetsOf, h, hcog, hk]

/-- Claim C6 counterexample: at an entry whose sole asset key is the empty
string, the exclusion scan's surviving key is `""`, so the claim's step (c)
would select `[""]`; the code's falsy-string guard
(`dataAsset ? [dataAsset] : []`) returns `[]` instead. -/
theorem c6_empty_key_counterexample :
    getDefaultAssets emptyKeyItem = [] ∧
    (emptyKeyItem.assets.map Prod.fst).find? notExcludedKey = some "" ∧
    ([] : List String) ≠ [""] := ⟨by decide, by decide, by decide⟩

/-- Witness for C6: the media-type scan fires on an entry whose renderable
key is not a preferred name. -/
theorem c6_default_asset_heuristic_witness :
    getDefaultAssets exampleItem = ["data2"] :=
  (c6_default_asset_heuristic exampleItem).2.1 (by decide)
    ("data2", { href := "d", type := some "image/tiff; application=geotiff" }) (by decide)

/-! ## C2 -/

/-- Claim C2 counterexample: with both `options.renderParams` (asset list
`["ra"]`) and `options.assets` (`["oa"]`) supplied, `addItemLayer` uses
`["oa"]`: `options.assets`, not the renderParams list, decides the asset
list, contradicting the claimed priority. -/
theorem c2_priority_counterexample :
    (emptyMgr.addItemLayer exampleItem
        { renderParams := some { assets := some ["ra"] }, assets := some ["oa"] }
        "abc123").2.assets = ["oa"] ∧
    (emptyMgr.addItemLayer exampleItem
        { renderParams := some { assets := some ["ra"] }, assets := some ["oa"] }
        "abc123").2.renderParams.assets = some ["oa"] :=
  ⟨by decide, by decide⟩

/-- Claim C2 as amended: `addItemLayer` resolves the asset list by the
priority `options.assets` > `options.renderParams.assets` > (when neither
`options.renderParams` nor `options.assets` is supplied and the item has a
collection id) the collection's default-preset assets > heuristic
default-asset selection; the parameter bundle is `options.renderParams`
when supplied (else the preset bundle, else empty), with its `assets`
field replaced by the resolved list. -/
theorem c2_addItemLayer_resolution (mgr : LayerManager) (item : STACItem)
    (opts : ItemLayerOptions) (suffix : String) :
    (∀ a, opts.assets = some a → (mgr.addItemLayer item opts suffix).2.assets = a) ∧
    (∀ rp l, opts.assets = none → opts.renderParams = some rp → rp.assets = some l →
      (mgr.addItemLayer item opts suffix).2.assets = l) ∧
    (∀ rp, opts.assets = none → opts.renderParams = some rp → rp.assets = none →
      (mgr.addItemLayer item opts suffix).2.assets = getDefaultAssets item) ∧
    (∀ pr, opts.assets = none → opts.renderParams = none →
      item.collection.getD "" ≠ "" →
      getDefaultPreset (item.collection.getD "") = some pr →
      (mgr.addItemLayer item opts suffix).2.renderParams =
        { pr.params with assets := some ((mgr.addItemLayer item opts suffix).2.assets) } ∧
      (mgr.addItemLayer item opts suffix).2.presetName = some pr.name ∧
      (∀ l, pr.params.assets = some l → (mgr.addItemLayer item opts suffix).2.assets = l) ∧
      (pr.params.assets = none →
        (mgr.addItemLayer item opts suffix).2.assets = getDefaultAssets item)) ∧
    (opts.assets = none → opts.renderParams = none →
      (item.collection.getD "" = "" ∨ getDefaultPreset (item.collection.getD "") = none) →
      (mgr.addItemLayer item opts suffix).2.assets = getDefaultAssets item) ∧
    (∀ rp, opts.renderParams = some rp →
      (mgr.addItemLayer item opts suffix).2.renderParams =
        { rp with assets := some ((mgr.addItemLayer item opts suffix).2.assets) }) := by
  refine ⟨?_, ?_, ?_, ?_, ?_, ?_⟩
  · intro a h
    simp [LayerManager.addItemLayer, h]
  · intro rp l h hrp hl
    simp [LayerManager.addItemLayer, h, hrp, hl]
  · intro rp h hrp hl
    simp [LayerManager.addItemLayer, h, hrp, hl]
  · intro pr h hrp hcid hpr
    simp [LayerManager.addItemLayer, h, hrp, hpr,
      show (item.collection.getD "" != "") = true by simpa using hcid]
    rcases hassets : pr.params.assets with _ | l <;> simp
  · intro h hrp hor
    rcases hor with hcid | hpre
    · simp [LayerManager.addItemLayer, h, hrp, hcid]
    · by_cases hcid : item.collection.getD "" = ""
      · simp [LayerManager.addItemLayer, h, hrp, hcid]
      · simp [LayerManager.addItemLayer, h, hrp, hpre,
          show (item.collection.getD "" != "") = true by simpa using hcid]
  · intro rp hrp
    rcases h : opts.assets with _ | a
    · rcases hl : rp.assets with _ | l <;>
        simp [LayerManager.addItemLayer, h, hrp, hl]
    · simp [LayerManager.addItemLayer, h, hrp]

/-- Witness for the amended C2: with only `options.renderParams` supplied,
its asset list is used. -/
theorem c2_addItemLayer_resolution_witness :
    (emptyMgr.addItemLayer exampleItem
        { renderParams := some { assets := some ["ra"] } } "abc123").2.assets = ["ra"] :=
  (c2_addItemLayer_resolution emptyMgr exampleItem
      { renderParams := some { assets := some ["ra"] } } "abc123").2.1
    { assets := some ["ra"] } ["ra"] rfl rfl rfl

/-! ## C1 -/

/-- Claim C1 counterexample: after the update, the stored record keeps the
old `assets` (`["data2"]`) while `renderParams.assets` is `["B04"]`: the
two fields are not kept in sync. -/
theorem c1_sync_counterexample :
    (c1Mgr.layers.lookup "item-1-abc123").map
        (fun l => (l.assets, l.renderParams.assets)) =
      some (["data2"], some ["B04"]) ∧
    (c1Mgr.layers.lookup "item-1-abc123").map
        (fun l => l.renderParams.assets == some l.assets) = some false := by
  exact ⟨by decide, by decide⟩

/-- Claim C1 as amended: `assets = renderParams.assets` holds on the record
returned (and stored) by the add operations; `updateLayer` stores a plain
shallow merge and does not re-sync the two fields, so the invariant is
preserved exactly when the update supplies neither field, or supplies both
with `updates.renderParams.assets = some updates.assets`; in particular an
update whose `renderParams` carries a new asset list without a matching
`updates.assets` breaks it. -/
theorem c1_assets_consistency (mgr : LayerManager) (item : STACItem)
    (collection : STACCollection) (iopts : ItemLayerOptions)
    (copts : CollectionLayerOptions) (suffix lid : String) (l : ActiveLayer)
    (u : LayerUpdates) :
    assetsConsistent (mgr.addItemLayer item iopts suffix).2 ∧
    ((mgr.addItemLayer item iopts suffix).1.layers.lookup
        (mgr.addItemLayer item iopts suffix).2.id =
      some (mgr.addItemLayer item iopts suffix).2) ∧
    assetsConsistent (mgr.addCollectionLayer collection copts suffix).2 ∧
    (mgr.layers.lookup lid = some l → assetsConsistent l →
      (u.renderParams = none ∧ u.assets = none) ∨
        (∃ rp a, u.renderParams = some rp ∧ u.assets = some a ∧ rp.assets = some a) →
      ∃ l', (mgr.updateLayer lid u).layers.lookup lid = some l' ∧ assetsConsistent l') := by
  refine ⟨?_, ?_, ?_, ?_⟩
  · simp [LayerManager.addItemLayer, assetsConsistent]
  · simp only [LayerManager.addItemLayer]
    exact alSet_lookup_self _ _ _
  · simp [LayerManager.addCollectionLayer, assetsConsistent]
  · intro hl hc hcases
    refine ⟨l.applyUpdates u, ?_, ?_⟩
    · simp only [LayerManager.updateLayer, hl]
      exact alSet_lookup_self _ _ _
    · rcases hcases with ⟨hrp, ha⟩ | ⟨rp, a, hrp, ha, hra⟩
      · simpa [ActiveLayer.applyUpdates, hrp, ha] using hc
      · simp [ActiveLayer.applyUpdates, hrp, ha, hra, assetsConsistent]

/-- Witness for the amended C1: an update supplying matching `assets` and
`renderParams.assets` preserves the invariant on the stored record. -/
theorem c1_assets_consistency_witness :
    assetsConsistent (emptyMgr.addItemLayer exampleItem {} "abc123").2 ∧
    ∃ l', (((emptyMgr.addItemLayer exampleItem {} "abc123").1).updateLayer
        "item-1-abc123"
        { assets := some ["B04"], renderParams := some { assets := some ["B04"] } }
          ).layers.lookup "item-1-abc123" = some l' ∧ assetsConsistent l' :=
  ⟨(c1_assets_consistency emptyMgr exampleItem { id := "c" } {} {} "abc123" "x"
      (emptyMgr.addItemLayer exampleItem {} "abc123").2 {}).1,
   (c1_assets_consistency (emptyMgr.addItemLayer exampleItem {} "abc123").1
      exampleItem { id := "c" } {} {} "abc123" "item-1-abc123"
      (emptyMgr.addItemLayer exampleItem {} "abc123").2
      { assets := some ["B04"], renderParams := some { assets := some ["B04"] } }).2.2.2
    (by decide)
    ((c1_assets_consistency emptyMgr exampleItem { id := "c" } {} {} "abc123" "x"
        (emptyMgr.addItemLayer exampleItem {} "abc123").2 {}).1)
    (Or.inr ⟨{ assets := some ["B04"] }, ["B04"], rfl, rfl, rfl⟩)⟩

/-! ## C10 -/

/-- Claim C10: adding an item layer with an explicit `renderParams` bundle
that carries an `expression` but no `assets` list (and no explicit
`options.assets`) stores a record whose bundle has both the expression and
the non-empty heuristically selected asset list, and the query pairs of
that bundle carry both the `expression` key and one `assets` entry per
selected asset. -/
theorem c10_expression_with_default_assets (mgr : LayerManager) (item : STACItem)
    (e suffix : String) (he : e ≠ "") (hassets : getDefaultAssets item ≠ []) :
    let res := mgr.addItemLayer item { renderParams := some { expression := some e } } suffix
    (res.1.layers.lookup res.2.id = some res.2) ∧
    res.2.renderParams.expression = some e ∧
    res.2.renderParams.assets = some (getDefaultAssets item) ∧
    res.2.assets = getDefaultAssets item ∧
    ("expression", e) ∈ buildQueryParams res.2.renderParams ∧
    ((buildQueryParams res.2.renderParams).filter
        (fun q => q.1 == "assets")).map Prod.snd = getDefaultAssets item := by
  have hbundle : (mgr.addItemLayer item
      { renderParams := some { expression := some e } } suffix).2.renderParams =
      { expression := some e, assets := some (getDefaultAssets item) } := by
    simp [LayerManager.addItemLayer]
  refine ⟨?_, ?_, ?_, ?_, ?_, ?_⟩
  · simp only [LayerManager.addItemLayer]
    exact alSet_lookup_self _ _ _
  · rw [hbundle]
  · rw [hbundle]
  · simp [LayerManager.addItemLayer]
  · rw [hbundle]
    simp [buildQueryParams, optPair, strTruthy,
      show (e != "") = true by simpa using he]
  · rw [hbundle]
    simp only [buildQueryParams, List.filter_append]
    rw [filter_optPair_ne (by decide), filter_optPair_ne (by decide),
        filter_optPair_ne (by decide), filter_optPair_ne (by decide),
        filter_optPair_ne (by decide), filter_optPair_ne (by decide),
        filter_optPair_ne (by decide), filter_optPair_ne (by decide),
        filter_bidxPairs_ne (by decide)]
    simpa using filter_assetsPairs_self hassets

/-- Witness for C10 at the concrete geotiff entry: the stored bundle keeps
both the NDVI-style expression and the selected asset list. -/
theorem c10_expression_with_default_assets_witness :
    (emptyMgr.addItemLayer exampleItem
        { renderParams := some { expression := some "(B08-B04)/(B08+B04)" } }
        "abc123").2.renderParams.assets = some ["data2"] ∧
    (emptyMgr.addItemLayer exampleItem
        { renderParams := some { expression := some "(B08-B04)/(B08+B04)" } }
        "abc123").2.renderParams.expression = some "(B08-B04)/(B08+B04)" := by
  have h := c10_expression_with_default_assets emptyMgr exampleItem
    "(B08-B04)/(B08+B04)" "abc123" (by decide) (by decide)
  refine ⟨?_, h.2.1⟩
  rw [h.2.2.1]
  decide

/-! ## C4 -/

theorem lookup_append_left_some {β : Type} (l₁ l₂ : List (String × β)) (k : String)
    (w : β) (h : l₁.lookup k = some w) : (l₁ ++ l₂).lookup k = some w := by
  induction l₁ with
  | nil => simp [List.lookup] at h
  | cons hd tl ih =>
    obtain ⟨k0, v0⟩ := hd
    by_cases hk : k = k0
    · simp only [List.lookup, List.cons_append] at h ⊢
      rw [show (k == k0) = true by simp [hk]] at h ⊢
      exact h
    · simp only [List.lookup, List.cons_append] at h ⊢
      rw [show (k == k0) = false by simp [hk]] at h ⊢
      exact ih h

theorem lookup_append_singleton_isSome {β : Type} (l : List (String × β)) (k : String)
    (v : β) : ((l ++ [(k, v)]).lookup k).isSome = true := by
  rcases h : l.lookup k with _ | w
  · rw [lookup_append_left_none _ _ _ h]
    simp [List.lookup]
  · rw [lookup_append_left_some _ _ _ _ h]
    rfl

/-- Behaviour of `removeLayer` on a registered record whose live layer and
source are both present: live layer is removed first, then the live
source, then the record. -/
theorem removeLayer_spec (mgr : LayerManager) (lid : String) (l : ActiveLayer)
    (hl : mgr.layers.lookup lid = some l)
    (hml : (mgr.map.getLayer lid).isSome = true)
    (hms : (mgr.map.getSource l.sourceId).isSome = true) :
    (mgr.removeLayer lid).layers.lookup lid = none ∧
    (mgr.removeLayer lid).map.getLayer lid = none ∧
    (mgr.removeLayer lid).map.getSource l.sourceId = none ∧
    (mgr.removeLayer lid).map.log = mgr.map.log ++
      [HostCall.removeLayer lid, HostCall.removeSource l.sourceId] := by
  simp only [LayerManager.removeLayer, hl]
  rw [if_pos hml]
  have hms1 : (((mgr.map.removeLayer lid)).getSource l.sourceId).isSome = true := hms
  rw [if_pos hms1]
  refine ⟨alDelete_lookup_self _ _, ?_, ?_, ?_⟩
  · exact lookup_filter_ne_self _ _
  · exact lookup_filter_ne_self _ _
  · simp [MapState.removeLayer, MapState.removeSource]

/-- Claim C4: `removeLayer` on an unknown id is a silent no-op; after any
add-then-remove sequence — for item layers and for collection-mosaic
layers alike — the registry has no record for the id and the host map has
neither the layer nor its source, the live layer being removed before the
live source. -/
theorem c4_remove_layer (mgr mgrc mgr0 : LayerManager) (item : STACItem)
    (collection : STACCollection) (opts : ItemLayerOptions)
    (copts : CollectionLayerOptions) (suffix csuffix lid : String) :
    (mgr0.layers.lookup lid = none → mgr0.removeLayer lid = mgr0) ∧
    (let res := mgr.addItemLayer item opts suffix
     let after := res.1.removeLayer res.2.id
     after.layers.lookup res.2.id = none ∧
     after.map.getLayer res.2.id = none ∧
     after.map.getSource res.2.sourceId = none ∧
     after.map.log = res.1.map.log ++
       [HostCall.removeLayer res.2.id, HostCall.removeSource res.2.sourceId]) ∧
    (let resc := mgrc.addCollectionLayer collection copts csuffix
     let afterc := resc.1.removeLayer resc.2.id
     afterc.layers.lookup resc.2.id = none ∧
     afterc.map.getLayer resc.2.id = none ∧
     afterc.map.getSource resc.2.sourceId = none ∧
     afterc.map.log = resc.1.map.log ++
       [HostCall.removeLayer resc.2.id, HostCall.removeSource resc.2.sourceId]) := by
  refine ⟨fun h => by simp [LayerManager.removeLayer, h], ?_, ?_⟩
  · exact removeLayer_spec _ _ _
      (by simp only [LayerManager.addItemLayer]
          exact alSet_lookup_self _ _ _)
      (by simp only [LayerManager.addItemLayer, MapState.addSource, MapState.addLayer,
            MapState.getLayer]
          exact lookup_append_singleton_isSome _ _ _)
      (by simp only [LayerManager.addItemLayer, MapState.addSource, MapState.addLayer,
            MapState.getSource]
          exact lookup_append_singleton_isSome _ _ _)
  · exact removeLayer_spec _ _ _
      (by simp only [LayerManager.addCollectionLayer]
          exact alSet_lookup_self _ _ _)
      (by simp only [LayerManager.addCollectionLayer, MapState.addSource,
            MapState.addLayer, MapState.getLayer]
          exact lookup_append_singleton_isSome _ _ _)
      (by simp only [LayerManager.addCollectionLayer, MapState.addSource,
            MapState.addLayer, MapState.getSource]
          exact lookup_append_singleton_isSome _ _ _)

/-- Witness for C4: removing an unknown id changes nothing, and after a
concrete item add-then-remove and a concrete collection add-then-remove
the registry, layer and source are all gone. -/
theorem c4_remove_layer_witness :
    emptyMgr.removeLayer "nope" = emptyMgr ∧
    ((emptyMgr.addItemLayer exampleItem {} "abc123").1.removeLayer
        "item-1-abc123").layers.lookup "item-1-abc123" = none ∧
    ((emptyMgr.addItemLayer exampleItem {} "abc123").1.removeLayer
        "item-1-abc123").map.getSource "item-1-abc123-source" = none ∧
    ((emptyMgr.addCollectionLayer exampleCollection {} "abc123").1.removeLayer
        "Example-Collection-abc123").layers.lookup "Example-Collection-abc123" = none ∧
    ((emptyMgr.addCollectionLayer exampleCollection {} "abc123").1.removeLayer
        "Example-Collection-abc123").map.getSource
      "Example-Collection-abc123-source" = none := by
  have h := c4_remove_layer emptyMgr emptyMgr emptyMgr exampleItem exampleCollection
    {} {} "abc123" "abc123" "nope"
  exact ⟨h.1 rfl, h.2.1.1, h.2.1.2.2.1, h.2.2.1, h.2.2.2.2.1⟩

/-! ## C3 -/

theorem applyVisOpacity_sources (m : MapState) (lid : String) (u : LayerUpdates) :
    (m.applyVisOpacityUpdates lid u).sources = m.sources := by
  unfold MapState.applyVisOpacityUpdates
  rcases u.visible with _ | v <;> rcases u.opacity with _ | o <;>
    simp [MapState.setLayoutVisibility, MapState.setPaintOpacity]

theorem applyVisOpacity_log (m : MapState) (lid : String) (u : LayerUpdates) :
    (m.applyVisOpacityUpdates lid u).log = m.log ++ visOpacityEvents lid u := by
  unfold MapState.applyVisOpacityUpdates visOpacityEvents
  rcases u.visible with _ | v <;> rcases u.opacity with _ | o <;>
    simp [MapState.setLayoutVisibility, MapState.setPaintOpacity]

theorem visOpacityEvents_not_source (lid : String) (u : LayerUpdates) :
    ∀ e ∈ visOpacityEvents lid u, e.isSourceEvent = false := by
  unfold visOpacityEvents
  rcases u.visible with _ | v <;> rcases u.opacity with _ | o <;>
    simp [HostCall.isSourceEvent]

theorem not_source_beq_source (e c : HostCall) (h : e.isSourceEvent = false)
    (hc : c.isSourceEvent = true) : (e == c) = false := by
  simp only [beq_eq_false_iff_ne]
  cases e <;> cases c <;> simp_all [HostCall.isSourceEvent]

/-- Behaviour of `updateLayerSource` on a registered record with a valid
origin: capture live visibility/opacity, remove layer then source, re-add
source then layer with the captured values. -/
theorem updateLayerSource_spec (mgr : LayerManager) (lid : String) (u : LayerUpdates)
    (l : ActiveLayer) (hl : mgr.layers.lookup lid = some l) (ho : l.originOk = true) :
    (mgr.updateLayerSource lid u).map.log =
      mgr.map.log ++ [HostCall.removeLayer lid, HostCall.removeSource l.sourceId,
        HostCall.addSource l.sourceId, HostCall.addLayer lid] ∧
    (mgr.updateLayerSource lid u).map.getLayer lid =
      some { source := l.sourceId,
             visibility := mgr.map.getLayoutVisibility lid,
             opacity := some ((mgr.map.getPaintOpacity lid).getD 1) } := by
  unfold ActiveLayer.originOk at ho
  rcases htype : l.type with _ | _ | _ <;> rw [htype] at ho <;>
    rcases hit : l.item with _ | it <;> rw [hit] at ho <;>
    rcases hc : l.collection with _ | c <;> rw [hc] at ho <;>
    simp at ho
  case item.some.none | item.some.some =>
    simp only [LayerManager.updateLayerSource, hl, htype, hit, beq_self_eq_true, if_true]
    constructor
    · simp [MapState.removeLayer, MapState.removeSource, MapState.addSource,
        MapState.addLayer]
    · simp only [MapState.removeLayer, MapState.removeSource, MapState.addSource,
        MapState.addLayer, MapState.getLayer]
      rw [lookup_append_left_none _ _ _ (lookup_filter_ne_self _ _)]
      simp [List.lookup]
  case collection.none.some | collection.some.some =>
    simp only [LayerManager.updateLayerSource, hl, htype, hit, hc,
      show (LayerKind.collection == LayerKind.item) = false from by decide,
      show (LayerKind.collection == LayerKind.collection) = true from by decide,
      Bool.false_eq_true, if_false, if_true]
    constructor
    · simp [MapState.removeLayer, MapState.removeSource, MapState.addSource,
        MapState.addLayer]
    · simp only [MapState.removeLayer, MapState.removeSource, MapState.addSource,
        MapState.addLayer, MapState.getLayer]
      rw [lookup_append_left_none _ _ _ (lookup_filter_ne_self _ _)]
      simp [List.lookup]

/-- Claim C3: an update supplying only `visible`/`opacity` leaves the map's
sources untouched and emits no source host call; an update supplying
`renderParams` or `assets` removes and re-adds the layer's source exactly
once (layer removed before source, source re-added before layer), and the
recreated layer carries the visibility and opacity read off the live layer
just before teardown (that is, after the visibility/opacity writes of the
same update). -/
theorem c3_update_frame_effect (mgr : LayerManager) (lid : String)
    (u : LayerUpdates) (l : ActiveLayer)
    (hl : mgr.layers.lookup lid = some l) (ho : l.originOk = true) :
    (u.renderParams = none → u.assets = none →
      (mgr.updateLayer lid u).map.sources = mgr.map.sources ∧
      (mgr.updateLayer lid u).map.log = mgr.map.log ++ visOpacityEvents lid u ∧
      (∀ e ∈ visOpacityEvents lid u, e.isSourceEvent = false)) ∧
    (u.renderParams.isSome = true ∨ u.assets.isSome = true →
      (mgr.updateLayer lid u).map.log =
        mgr.map.log ++ visOpacityEvents lid u ++
          [HostCall.removeLayer lid, HostCall.removeSource l.sourceId,
           HostCall.addSource l.sourceId, HostCall.addLayer lid] ∧
      ((mgr.updateLayer lid u).map.log.drop mgr.map.log.length).countP
          (fun e => e == HostCall.addSource l.sourceId) = 1 ∧
      ((mgr.updateLayer lid u).map.log.drop mgr.map.log.length).countP
          (fun e => e == HostCall.removeSource l.sourceId) = 1 ∧
      (mgr.updateLayer lid u).map.getLayer lid =
        some { source := l.sourceId,
               visibility := (mgr.map.applyVisOpacityUpdates lid u).getLayoutVisibility lid,
               opacity := some
                 (((mgr.map.applyVisOpacityUpdates lid u).getPaintOpacity lid).getD 1) }) := by
  constructor
  · intro hrp ha
    have hcond : (u.renderParams.isSome || u.assets.isSome) = false := by
      simp [hrp, ha]
    simp only [LayerManager.updateLayer, hl, hcond, Bool.false_eq_true, if_false]
    exact ⟨applyVisOpacity_sources _ _ _, applyVisOpacity_log _ _ _,
      visOpacityEvents_not_source _ _⟩
  · intro hor
    have hcond : (u.renderParams.isSome || u.assets.isSome) = true := by
      rcases hor with h | h <;> simp [h]
    have hspec := updateLayerSource_spec
      { mgr with map := mgr.map.applyVisOpacityUpdates lid u } lid u l hl ho
    have hlogfull :
        (mgr.updateLayer lid u).map.log =
          mgr.map.log ++ visOpacityEvents lid u ++
            [HostCall.removeLayer lid, HostCall.removeSource l.sourceId,
             HostCall.addSource l.sourceId, HostCall.addLayer lid] := by
      simp only [LayerManager.updateLayer, hl, hcond, if_true]
      rw [hspec.1]
      simp [applyVisOpacity_log]
    have hdelta :
        (mgr.updateLayer lid u).map.log.drop mgr.map.log.length =
          visOpacityEvents lid u ++
            [HostCall.removeLayer lid, HostCall.removeSource l.sourceId,
             HostCall.addSource l.sourceId, HostCall.addLayer lid] := by
      rw [hlogfull, List.append_assoc, List.drop_left]
    refine ⟨hlogfull, ?_, ?_, ?_⟩
    · rw [hdelta, List.countP_append]
      have h0 : (visOpacityEvents lid u).countP
          (fun e => e == HostCall.addSource l.sourceId) = 0 := by
        rw [List.countP_eq_zero]
        intro e he
        have hns := visOpacityEvents_not_source lid u e he
        simp only [beq_iff_eq]
        intro hEq
        rw [hEq] at hns
        simp [HostCall.isSourceEvent] at hns
      rw [h0]
      simp [List.countP_cons]
    · rw [hdelta, List.countP_append]
      have h0 : (visOpacityEvents lid u).countP
          (fun e => e == HostCall.removeSource l.sourceId) = 0 := by
        rw [List.countP_eq_zero]
        intro e he
        have hns := visOpacityEvents_not_source lid u e he
        simp only [beq_iff_eq]
        intro hEq
        rw [hEq] at hns
        simp [HostCall.isSourceEvent] at hns
      rw [h0]
      simp [List.countP_cons]
    · simp only [LayerManager.updateLayer, hl, hcond, if_true]
      rw [hspec.2]

/-- Witness for C3: an opacity-only update leaves the concrete map's
sources untouched, and a renderParams update performs exactly the
teardown/recreation call sequence. -/
theorem c3_update_frame_effect_witness :
    (((emptyMgr.addItemLayer exampleItem {} "abc123").1.updateLayer "item-1-abc123"
        { opacity := some 1 }).map.sources =
      (emptyMgr.addItemLayer exampleItem {} "abc123").1.map.sources) ∧
    ((emptyMgr.addItemLayer exampleItem {} "abc123").1.updateLayer "item-1-abc123"
        { renderParams := some { rescale := some "0,100" } }).map.log =
      (emptyMgr.addItemLayer exampleItem {} "abc123").1.map.log ++
        [HostCall.removeLayer "item-1-abc123",
         HostCall.removeSource "item-1-abc123-source",
         HostCall.addSource "item-1-abc123-source",
         HostCall.addLayer "item-1-abc123"] := by
  have h1 := c3_update_frame_effect (emptyMgr.addItemLayer exampleItem {} "abc123").1
    "item-1-abc123" { opacity := some 1 }
    (emptyMgr.addItemLayer exampleItem {} "abc123").2 (by decide) (by decide)
  have h2 := c3_update_frame_effect (emptyMgr.addItemLayer exampleItem {} "abc123").1
    "item-1-abc123" { renderParams := some { rescale := some "0,100" } }
    (emptyMgr.addItemLayer exampleItem {} "abc123").2 (by decide) (by decide)
  refine ⟨(h1.1 rfl rfl).1, ?_⟩
  have h3 := (h2.2 (Or.inl rfl)).1
  simpa [visOpacityEvents] using h3

end PC
